import Mathlib

/-!
Shallow embedding of the Text-to-Columns repository:
`zotero_integration.py` (a read-only metadata extractor over a Zotero
SQLite store) and `classify_text.py` (a GPT-2 conversational wrapper and
a zero-shot classifier).  The SQLite store is modelled as lists of rows;
SQL `NULL` is modelled as `Option.none`; the external pretrained models
and the undefined `handle_large_contexts` helper are modelled as
function-valued parameters (collaborators).  Connection lifecycle is
made observable as a trace of connect/close events.
-/

namespace TextToColumns

/-- Error raised by the database functions: `FileNotFoundError` when the
store path does not exist. -/
inductive DBError where
  | notFound
deriving DecidableEq

/-- Observable connection-lifecycle events (`sqlite3.connect` / `conn.close()`). -/
inductive ConnEvent where
  | connect
  | close
deriving DecidableEq

/-- A row of the `collections` table; `collectionName` is nullable. -/
structure CollectionsRow where
  collectionID : Int
  collectionName : Option String
deriving DecidableEq

/-- A row of the `collectionItems` table. -/
structure CollectionItemsRow where
  collectionID : Int
  itemID : Int
deriving DecidableEq

/-- A row of the `items` table; `key` is nullable. -/
structure ItemsRow where
  itemID : Int
  key : Option String
deriving DecidableEq

/-- A row of the `itemData` table. -/
structure ItemDataRow where
  itemID : Int
  fieldID : Int
  valueID : Int
deriving DecidableEq

/-- A row of the `itemDataValues` table; `value` is nullable. -/
structure ItemDataValuesRow where
  valueID : Int
  value : Option String
deriving DecidableEq

/-- A row of the `itemCreators` table. -/
structure ItemCreatorsRow where
  itemID : Int
  creatorID : Int
deriving DecidableEq

/-- A row of the `creators` table; `lastName` is nullable. -/
structure CreatorsRow where
  creatorID : Int
  lastName : Option String
deriving DecidableEq

/-- The Zotero SQLite store: existence of the file at `db_path` plus the
contents of the seven tables the queries touch. -/
structure Store where
  pathExists : Bool
  collections : List CollectionsRow
  collectionItems : List CollectionItemsRow
  items : List ItemsRow
  itemData : List ItemDataRow
  itemDataValues : List ItemDataValuesRow
  itemCreators : List ItemCreatorsRow
  creators : List CreatorsRow
deriving DecidableEq

/-- Python `sorted(set(xs))`: the distinct elements of `xs` listed in
ascending order. -/
def sortedSet (xs : List String) : List String :=
  List.insertionSort (· ≤ ·) xs.dedup

/-- `get_all_collections(db_path)`: raises `FileNotFoundError` when the
path is missing; otherwise `SELECT collectionName FROM collections`,
drops `NULL` names, and returns `sorted(set(names))`.  The second
component is the connection trace.  This models the executions in which
the existing file is a valid SQLite database, so the queries succeed;
`get_all_collections_run` makes the query-failure behaviour explicit. -/
def get_all_collections (st : Store) :
    Except DBError (List String) × List ConnEvent :=
  if st.pathExists = false then (Except.error DBError.notFound, [])
  else
    let rows := st.collections.map (fun r => r.collectionName)
    let collection_names := rows.filterMap id
    (Except.ok (sortedSet collection_names), [ConnEvent.connect, ConnEvent.close])

/-- First result of
`SELECT itemDataValues.value FROM itemData JOIN itemDataValues ON
itemData.valueID = itemDataValues.valueID WHERE itemData.itemID = ? AND
itemData.fieldID = ?`: `none` when the join yields no row, otherwise the
(possibly `NULL`) value of the first joined row. -/
def lookupFieldValue (st : Store) (itemID fieldID : Int) : Option (Option String) :=
  (st.itemData.filter (fun r => r.itemID == itemID && r.fieldID == fieldID)).findSome?
    (fun r => (st.itemDataValues.find? (fun v => v.valueID == r.valueID)).map
      (fun v => v.value))

/-- `row_title[0] if row_title else ""` for fieldID 110. -/
def titleValue (st : Store) (iid : Int) : Option String :=
  (lookupFieldValue st iid 110).getD (some "")

/-- `date_val = row_date[0] if row_date else ""` for fieldID 115. -/
def dateValue (st : Store) (iid : Int) : Option String :=
  (lookupFieldValue st iid 115).getD (some "")

/-- `key = row_key[0] if row_key else ""`: the key of the first `items`
row with this `itemID`, or `""` when no row exists. -/
def keyValue (st : Store) (iid : Int) : Option String :=
  match st.items.find? (fun r => r.itemID == iid) with
  | some r => r.key
  | none => some ""

/-- `SELECT group_concat(creators.lastName, '; ') ...`: SQL `group_concat`
joins the non-`NULL` last names of the item's creators with `"; "`, and
is `NULL` when there is none. -/
def groupConcatLastNames (st : Store) (iid : Int) : Option String :=
  let names := (st.itemCreators.filter (fun r => r.itemID == iid)).filterMap
    (fun r => (st.creators.find? (fun cr => cr.creatorID == r.creatorID)).bind
      (fun cr => cr.lastName))
  if names.isEmpty then none else some (String.intercalate "; " names)

/-- Whether `re.match(r"(\d{4})", s)` succeeds: `s` is at least 4
characters long and its first 4 characters are digits. -/
def startsWithFourDigits (s : String) : Bool :=
  decide (4 ≤ s.length) && (s.toList.take 4).all Char.isDigit

/-- The year-extraction logic: `year = ""`, and when `date_val` is truthy
and `re.match(r"(\d{4})", date_val)` succeeds, `year = m.group(1)` (the
first four characters). -/
def extractYear (dateVal : Option String) : String :=
  match dateVal with
  | none => ""
  | some s =>
    if s = "" then ""
    else if startsWithFourDigits s then String.mk (s.toList.take 4) else ""

/-- One output record of `get_collection_items_metadata`.  Fields that a
Python dict could hold as `None` are `Option String`. -/
structure ItemMeta where
  itemID : Int
  title : Option String
  authors : Option String
  year : String
  key : Option String
deriving DecidableEq

/-- The `meta_dict` built for one `item_id` in the loop body. -/
def buildMeta (st : Store) (iid : Int) : ItemMeta :=
  { itemID := iid
    title := titleValue st iid
    authors := groupConcatLastNames st iid
    year := extractYear (dateValue st iid)
    key := keyValue st iid }

/-- `get_collection_items_metadata(db_path, collection_name, require_attachment)`:
raises `FileNotFoundError` on a missing path; resolves the collection name
(first matching row, SQL equality so `NULL` names never match) and returns
`[]` when there is none; collects the member `itemID`s; when
`require_attachment` is set, skips an item iff `SELECT key FROM items
WHERE itemID=?` returns no row; builds one `meta_dict` per retained item.
The second component is the connection trace.  This models the
executions in which the existing file is a valid SQLite database, so the
queries succeed; `get_collection_items_metadata_run` makes the
query-failure behaviour explicit. -/
def get_collection_items_metadata (st : Store) (collection_name : String)
    (require_attachment : Bool) :
    Except DBError (List ItemMeta) × List ConnEvent :=
  if st.pathExists = false then (Except.error DBError.notFound, [])
  else
    match st.collections.find? (fun r => r.collectionName == some collection_name) with
    | none => (Except.ok [], [ConnEvent.connect, ConnEvent.close])
    | some row =>
      let collection_id := row.collectionID
      let item_ids := (st.collectionItems.filter
        (fun r => r.collectionID == collection_id)).map (fun r => r.itemID)
      let all_metadata := item_ids.filterMap (fun item_id =>
        if require_attachment && (st.items.find? (fun r => r.itemID == item_id)).isNone
        then none
        else some (buildMeta st item_id))
      (Except.ok all_metadata, [ConnEvent.connect, ConnEvent.close])

/-- One conversation turn: `{"role": ..., "content": ...}`. -/
structure Turn where
  role : String
  content : String
deriving DecidableEq

/-- Prompt serialization in `qa_with_gpt2`: one `"role: content\n"` line
per message, then the `"assistant:"` cue. -/
def serializePrompt (conversation : List Turn) : String :=
  (conversation.foldl (fun acc m => acc ++ m.role ++ ": " ++ m.content ++ "\n") "")
    ++ "assistant:"

/-- `generated_text.split("assistant:")[-1].strip()`. -/
def parseAssistantResponse (generated_text : String) : String :=
  ((generated_text.splitOn "assistant:").getLastD "").trim

/-- The external collaborators of `qa_with_gpt2`: the GPT-2 tokenizer,
`generate_with_gpt2` (given the prompt and `max_new_tokens`; may fail),
and the undefined `handle_large_contexts` helper (given the token list
and `max_tokens`; may fail). -/
structure GPT2Env where
  tokenize : String → List String
  generate : String → Nat → Except String String
  handle_large_contexts : List String → Nat → Except String String

/-- The body of the `try` block of `qa_with_gpt2` up to the generated
text: tokenize the serialized prompt; when it has fewer than 600 tokens
generate directly from it, otherwise reduce it via
`handle_large_contexts` and generate from the reduced prompt. -/
def gen_result (env : GPT2Env) (conversation : List Turn) (max_tokens : Nat) :
    Except String String :=
  let prompt := serializePrompt conversation
  let prompt_tokens := env.tokenize prompt
  if prompt_tokens.length < 600 then
    env.generate prompt max_tokens
  else
    (env.handle_large_contexts prompt_tokens max_tokens).bind
      (fun reduced_prompt => env.generate reduced_prompt max_tokens)

/-- `qa_with_gpt2(conversation, max_tokens, temperature)`: on success
appends `{"role": "assistant", "content": parsed reply}`; any failure is
caught and `{"role": "assistant", "content": f"Error: {str(e)}"}` is
appended instead; the (extended) conversation is returned either way. -/
def qa_with_gpt2 (env : GPT2Env) (conversation : List Turn) (max_tokens : Nat) :
    List Turn :=
  match gen_result env conversation max_tokens with
  | Except.ok generated_text =>
    conversation ++ [{ role := "assistant", content := parseAssistantResponse generated_text }]
  | Except.error e =>
    conversation ++ [{ role := "assistant", content := "Error: " ++ e }]

/-- The body of the per-text `try` block of `classify_text`:
`pipe(text, candidate_labels=terms)` yields a ranked label list;
`result['labels'][0]` is the top label, and an empty ranking raises
`IndexError("list index out of range")`; any exception is caught and
turned into `f"Error: {str(e)}"`. -/
def classifyOne (pipe : String → List String → Except String (List String))
    (terms : List String) (text : String) : String :=
  match pipe text terms with
  | Except.ok [] => "Error: list index out of range"
  | Except.ok (top :: _) => top
  | Except.error e => "Error: " ++ e

/-- `classify_text(text_list, prompt, terms)`: classifies each text
independently, accumulating one result string per input text.  The
`prompt` argument is accepted but never used by the body. -/
def classify_text (pipe : String → List String → Except String (List String))
    (text_list : List String) (prompt : String) (terms : List String) : List String :=
  text_list.map (fun text => classifyOne pipe terms text)

instance {ε α : Type} [DecidableEq ε] [DecidableEq α] : DecidableEq (Except ε α) :=
  fun a b =>
    match a, b with
    | Except.ok x, Except.ok y =>
      if h : x = y then isTrue (by rw [h]) else isFalse (by intro hc; cases hc; exact h rfl)
    | Except.error x, Except.error y =>
      if h : x = y then isTrue (by rw [h]) else isFalse (by intro hc; cases hc; exact h rfl)
    | Except.ok _, Except.error _ => isFalse (by intro hc; cases hc)
    | Except.error _, Except.ok _ => isFalse (by intro hc; cases hc)

/-- The spec's filter predicate, from its words: a record whose "key
field is non-empty" (a present, non-empty string — Python truthiness of
the `key` value).  Stated for comparison with the code's behaviour. -/
def keyNonEmptySpec (m : ItemMeta) : Bool :=
  match m.key with
  | some s => decide (s ≠ "")
  | none => false

/-- A store whose only collection holds one item whose `items` row exists
with an empty `key`. -/
def storeKeyEmpty : Store :=
  { pathExists := true
    collections := [{ collectionID := 1, collectionName := some "c" }]
    collectionItems := [{ collectionID := 1, itemID := 10 }]
    items := [{ itemID := 10, key := some "" }]
    itemData := []
    itemDataValues := []
    itemCreators := []
    creators := [] }

/-- A store with duplicate, unsorted and `NULL` collection names. -/
def storeNames : Store :=
  { pathExists := true
    collections := [{ collectionID := 1, collectionName := some "b" },
                    { collectionID := 2, collectionName := some "a" },
                    { collectionID := 3, collectionName := none },
                    { collectionID := 4, collectionName := some "a" }]
    collectionItems := []
    items := []
    itemData := []
    itemDataValues := []
    itemCreators := []
    creators := [] }

/-- A store with one collection `"c"` whose single item has a key and a
date value `"2023-05-01"`. -/
def storeDated : Store :=
  { pathExists := true
    collections := [{ collectionID := 1, collectionName := some "c" }]
    collectionItems := [{ collectionID := 1, itemID := 10 }]
    items := [{ itemID := 10, key := some "ABCD1234" }]
    itemData := [{ itemID := 10, fieldID := 115, valueID := 7 }]
    itemDataValues := [{ valueID := 7, value := some "2023-05-01" }]
    itemCreators := []
    creators := [] }

/-- The single record `storeDated` produces for collection `"c"`. -/
def metaDated : ItemMeta := buildMeta storeDated 10

/-- A collaborator environment whose tokenizer returns no tokens and
whose generator echoes its prompt. -/
def envEcho : GPT2Env :=
  { tokenize := fun _ => []
    generate := fun p _ => Except.ok p
    handle_large_contexts := fun _ _ => Except.ok "reduced" }

/-- A collaborator environment whose generator always fails. -/
def envFail : GPT2Env :=
  { tokenize := fun _ => []
    generate := fun _ _ => Except.error "boom"
    handle_large_contexts := fun _ _ => Except.ok "reduced" }

/-- A classification pipeline that ranks the candidate labels in the
order they were supplied. -/
def pipeId : String → List String → Except String (List String) :=
  fun _ labels => Except.ok labels

/-- Python-level outcomes of a database call: the explicit
`FileNotFoundError` raise, or an uncaught `sqlite3.DatabaseError` raised
by a query executed against an existing file that is not a SQLite
database. -/
inductive PyError where
  | fileNotFound
  | sqliteError
deriving DecidableEq

/-- `get_all_collections` with the SQLite client's failure behaviour
made explicit.  `validDb` says whether the existing file at `db_path` is
a real SQLite database: `sqlite3.connect` succeeds lazily either way,
and on a non-database file the first `c.execute` raises
`sqlite3.DatabaseError`.  The source wraps the connection in no `with`
block and no `try/finally`, so on that path the exception propagates
before `conn.close()` is reached and the trace ends after the connect. -/
def get_all_collections_run (st : Store) (validDb : Bool) :
    Except PyError (List String) × List ConnEvent :=
  if st.pathExists = false then (Except.error PyError.fileNotFound, [])
  else if validDb = false then (Except.error PyError.sqliteError, [ConnEvent.connect])
  else
    let rows := st.collections.map (fun r => r.collectionName)
    let collection_names := rows.filterMap id
    (Except.ok (sortedSet collection_names), [ConnEvent.connect, ConnEvent.close])

/-- `get_collection_items_metadata` with the SQLite client's failure
behaviour made explicit (see `get_all_collections_run`): when the
existing file is not a SQLite database, the first query after the
connect raises, the exception propagates, and every `conn.close()` —
each of which sits on a return path — is skipped. -/
def get_collection_items_metadata_run (st : Store) (collection_name : String)
    (require_attachment : Bool) (validDb : Bool) :
    Except PyError (List ItemMeta) × List ConnEvent :=
  if st.pathExists = false then (Except.error PyError.fileNotFound, [])
  else if validDb = false then (Except.error PyError.sqliteError, [ConnEvent.connect])
  else
    match st.collections.find? (fun r => r.collectionName == some collection_name) with
    | none => (Except.ok [], [ConnEvent.connect, ConnEvent.close])
    | some row =>
      let collection_id := row.collectionID
      let item_ids := (st.collectionItems.filter
        (fun r => r.collectionID == collection_id)).map (fun r => r.itemID)
      let all_metadata := item_ids.filterMap (fun item_id =>
        if require_attachment && (st.items.find? (fun r => r.itemID == item_id)).isNone
        then none
        else some (buildMeta st item_id))
      (Except.ok all_metadata, [ConnEvent.connect, ConnEvent.close])

/-! ### Helper lemmas -/

/-- The connection trace of `get_all_collections` on each path. -/
theorem get_all_collections_trace (st : Store) :
    (get_all_collections st).2
      = if st.pathExists = false then [] else [ConnEvent.connect, ConnEvent.close] := by
  unfold get_all_collections
  split <;> rfl

/-- The connection trace of `get_collection_items_metadata` on each path. -/
theorem get_collection_items_metadata_trace (st : Store) (name : String) (ra : Bool) :
    (get_collection_items_metadata st name ra).2
      = if st.pathExists = false then [] else [ConnEvent.connect, ConnEvent.close] := by
  unfold get_collection_items_metadata
  split
  · rfl
  · split <;> rfl

/-- On a valid database the explicit-failure model of
`get_all_collections` coincides with the total model (same result up to
the error type, same connection trace). -/
theorem get_all_collections_run_valid (st : Store) :
    get_all_collections_run st true
      = ((get_all_collections st).1.mapError (fun _ => PyError.fileNotFound),
         (get_all_collections st).2) := by
  by_cases hp : st.pathExists = false
  · simp only [get_all_collections_run, get_all_collections, if_pos hp]
    rfl
  · simp only [get_all_collections_run, get_all_collections, if_neg hp]
    rfl

/-- On a valid database the explicit-failure model of
`get_collection_items_metadata` coincides with the total model. -/
theorem get_collection_items_metadata_run_valid (st : Store) (name : String)
    (ra : Bool) :
    get_collection_items_metadata_run st name ra true
      = ((get_collection_items_metadata st name ra).1.mapError
          (fun _ => PyError.fileNotFound),
         (get_collection_items_metadata st name ra).2) := by
  by_cases hp : st.pathExists = false
  · simp only [get_collection_items_metadata_run, get_collection_items_metadata,
      if_pos hp]
    rfl
  · simp only [get_collection_items_metadata_run, get_collection_items_metadata,
      if_neg hp]
    cases hf : st.collections.find? (fun r => r.collectionName == some name) with
    | none => rfl
    | some row => rfl

/-- Membership in `sortedSet` is membership in the underlying list. -/
theorem mem_sortedSet {x : String} {ys : List String} : x ∈ sortedSet ys ↔ x ∈ ys := by
  unfold sortedSet
  rw [List.mem_insertionSort]
  exact List.mem_dedup

/-- The `year` field of a built record is the year extracted from the
item's raw date value. -/
theorem buildMeta_year (st : Store) (iid : Int) :
    (buildMeta st iid).year = extractYear (dateValue st iid) := rfl

/-- The `itemID` field of a built record is the item id it was built from. -/
theorem buildMeta_itemID (st : Store) (iid : Int) : (buildMeta st iid).itemID = iid := rfl

/-- When the date value starts with four digits, the extracted year is
its first four characters. -/
theorem extractYear_of_fourDigits (s : String) (h4 : startsWithFourDigits s = true) :
    extractYear (some s) = String.mk (s.toList.take 4) := by
  have h4' := h4
  unfold startsWithFourDigits at h4'
  rw [Bool.and_eq_true] at h4'
  have hlen : 4 ≤ s.length := of_decide_eq_true h4'.1
  have hne : s ≠ "" := by
    intro he
    rw [he] at hlen
    simp [String.length] at hlen
  simp [extractYear, hne, h4]

/-- When the date value does not start with four digits, the extracted
year is empty. -/
theorem extractYear_of_not_fourDigits (s : String) (hs : startsWithFourDigits s = false) :
    extractYear (some s) = "" := by
  by_cases he : s = ""
  · simp [extractYear, he]
  · simp [extractYear, he, hs]

/-- The extracted year is the empty string or exactly four digits. -/
theorem extractYear_shape (d : Option String) :
    extractYear d = ""
      ∨ ((extractYear d).length = 4 ∧ (extractYear d).toList.all Char.isDigit = true) := by
  match d with
  | none => exact Or.inl rfl
  | some s =>
    by_cases h4 : startsWithFourDigits s = true
    · right
      rw [extractYear_of_fourDigits s h4]
      unfold startsWithFourDigits at h4
      rw [Bool.and_eq_true] at h4
      have hlen : 4 ≤ s.length := of_decide_eq_true h4.1
      constructor
      · show (s.toList.take 4).length = 4
        rw [List.length_take]
        have hl : s.toList.length = s.length := rfl
        omega
      · exact h4.2
    · exact Or.inl (extractYear_of_not_fourDigits s (by
        revert h4
        cases startsWithFourDigits s <;> simp))

/-- Every record in a successful `get_collection_items_metadata` result
is `buildMeta` of some item id. -/
theorem mem_get_collection_items_metadata (st : Store) (name : String) (ra : Bool)
    (l : List ItemMeta)
    (h : (get_collection_items_metadata st name ra).1 = Except.ok l)
    (m : ItemMeta) (hm : m ∈ l) : ∃ iid, m = buildMeta st iid := by
  unfold get_collection_items_metadata at h
  split at h
  · cases h
  · split at h
    · simp only [Prod.fst] at h
      cases h
      cases hm
    · simp only [Prod.fst] at h
      cases h
      rw [List.mem_filterMap] at hm
      obtain ⟨iid, _, hfm⟩ := hm
      by_cases hc :
          (ra && (st.items.find? (fun r => r.itemID == iid)).isNone) = true
      · rw [if_pos hc] at hfm
        cases hfm
      · rw [if_neg hc] at hfm
        exact ⟨iid, (Option.some.injEq _ _ ▸ hfm : _ = _).symm⟩

/-- With `require_attachment` set, the loop keeps exactly the items whose
`items` row exists, building the same records. -/
theorem filterMap_attachment (st : Store) (l : List Int) :
    l.filterMap (fun iid =>
        if (st.items.find? (fun r => r.itemID == iid)).isNone then none
        else some (buildMeta st iid))
      = (l.map (buildMeta st)).filter
          (fun m => (st.items.find? (fun r => r.itemID == m.itemID)).isSome) := by
  induction l with
  | nil => rfl
  | cons i t ih =>
    simp only [List.filterMap_cons, List.map_cons, List.filter_cons, buildMeta_itemID]
    by_cases hf : (st.items.find? (fun r => r.itemID == i)).isNone = true
    · rw [Option.isNone_iff_eq_none] at hf
      simp only [hf]
      exact ih
    · obtain ⟨r, hr⟩ : ∃ r, st.items.find? (fun r => r.itemID == i) = some r := by
        cases hx : st.items.find? (fun r => r.itemID == i)
        · rw [hx] at hf
          simp at hf
        · exact ⟨_, rfl⟩
      simp only [hr]
      exact congrArg (List.cons (buildMeta st i)) ih

/-! ### Claim theorems -/

/-- Claim C2: `qa_with_gpt2` generates directly from the serialized
prompt when its token count is strictly below 600 (in particular the
reduction collaborator is then irrelevant), and otherwise first reduces
the prompt via `handle_large_contexts` and generates from the reduced
prompt. -/
theorem qa_with_gpt2_token_threshold (env : GPT2Env) (conv : List Turn) (mt : Nat) :
    ((env.tokenize (serializePrompt conv)).length < 600 →
      gen_result env conv mt = env.generate (serializePrompt conv) mt
      ∧ ∀ hlc, qa_with_gpt2 { env with handle_large_contexts := hlc } conv mt
          = qa_with_gpt2 env conv mt)
    ∧ (600 ≤ (env.tokenize (serializePrompt conv)).length →
      gen_result env conv mt
        = (env.handle_large_contexts (env.tokenize (serializePrompt conv)) mt).bind
            (fun reduced_prompt => env.generate reduced_prompt mt)) := by
  constructor
  · intro h
    have hg : gen_result env conv mt = env.generate (serializePrompt conv) mt := by
      unfold gen_result
      rw [if_pos h]
    refine ⟨hg, fun hlc => ?_⟩
    have hg2 : gen_result { env with handle_large_contexts := hlc } conv mt
        = env.generate (serializePrompt conv) mt := by
      unfold gen_result
      rw [if_pos h]
    unfold qa_with_gpt2
    rw [hg, hg2]
  · intro h
    unfold gen_result
    rw [if_neg (by omega)]

/-- Witness for C2 at a concrete collaborator environment whose prompt
tokenizes below the threshold. -/
theorem qa_with_gpt2_token_threshold_witness :
    gen_result envEcho [] 300 = envEcho.generate (serializePrompt []) 300
    ∧ ∀ hlc, qa_with_gpt2 { envEcho with handle_large_contexts := hlc } [] 300
        = qa_with_gpt2 envEcho [] 300 :=
  (qa_with_gpt2_token_threshold envEcho [] 300).1 (by decide)

/-- Counterexample to claim C3 as stated: when the store path exists but
the file is not a valid SQLite database, both functions open a
connection and the exception raised by the first query propagates before
any `conn.close()` — the connection is opened and never closed on that
error path. -/
theorem connection_leak_counterexample :
    (ConnEvent.connect ∈ (get_all_collections_run storeDated false).2
      ∧ ConnEvent.close ∉ (get_all_collections_run storeDated false).2)
    ∧ (ConnEvent.connect ∈ (get_collection_items_metadata_run storeDated "c" true false).2
      ∧ ConnEvent.close ∉ (get_collection_items_metadata_run storeDated "c" true false).2) := by
  decide

/-- Claim C3 (amended): a call to `get_all_collections` or
`get_collection_items_metadata` closes every connection it opens exactly
when no uncaught SQLite error escapes it — the missing-store raise opens
no connection and every returning path closes what it opened, but when a
query raises after the connect (an existing non-database file) the
opened connection is never closed: acquisition is not scoped and release
is not guaranteed on that error path. -/
theorem connections_closed_iff_no_uncaught_error (st : Store) (name : String)
    (ra : Bool) (validDb : Bool) :
    ((get_all_collections_run st validDb).2.count ConnEvent.connect
        = (get_all_collections_run st validDb).2.count ConnEvent.close
      ↔ (get_all_collections_run st validDb).1 ≠ Except.error PyError.sqliteError)
    ∧ ((get_collection_items_metadata_run st name ra validDb).2.count ConnEvent.connect
        = (get_collection_items_metadata_run st name ra validDb).2.count ConnEvent.close
      ↔ (get_collection_items_metadata_run st name ra validDb).1
          ≠ Except.error PyError.sqliteError) := by
  constructor
  · by_cases hp : st.pathExists = false
    · simp [get_all_collections_run, hp]
    · by_cases hv : validDb = false
      · simp [get_all_collections_run, hp, hv]
      · simp [get_all_collections_run, hp, hv]
  · by_cases hp : st.pathExists = false
    · simp [get_collection_items_metadata_run, hp]
    · by_cases hv : validDb = false
      · simp [get_collection_items_metadata_run, hp, hv]
      · cases hf : st.collections.find? (fun r => r.collectionName == some name) with
        | none => simp [get_collection_items_metadata_run, hp, hv, hf]
        | some row => simp [get_collection_items_metadata_run, hp, hv, hf]

/-- Claim C4: one call to `qa_with_gpt2` appends exactly one turn, with
role `"assistant"`, whether generation succeeds or fails; on failure the
appended turn's content is the error string and no exception escapes
(the function is total and still returns the extended conversation). -/
theorem qa_with_gpt2_appends_one_turn (env : GPT2Env) (conv : List Turn) (mt : Nat) :
    (∃ c, qa_with_gpt2 env conv mt = conv ++ [{ role := "assistant", content := c }])
    ∧ (∀ e, gen_result env conv mt = Except.error e →
        qa_with_gpt2 env conv mt
          = conv ++ [{ role := "assistant", content := "Error: " ++ e }]) := by
  constructor
  · cases hg : gen_result env conv mt with
    | ok t =>
      exact ⟨parseAssistantResponse t, by unfold qa_with_gpt2; rw [hg]⟩
    | error e =>
      exact ⟨"Error: " ++ e, by unfold qa_with_gpt2; rw [hg]⟩
  · intro e he
    unfold qa_with_gpt2
    rw [he]

/-- Witness for C4 at a concrete environment whose generator fails. -/
theorem qa_with_gpt2_appends_one_turn_witness :
    qa_with_gpt2 envFail [] 300
      = [] ++ [{ role := "assistant", content := "Error: " ++ "boom" }] :=
  (qa_with_gpt2_appends_one_turn envFail [] 300).2 "boom" rfl

/-- Claim C9: `classify_text` is independent of its `prompt` argument —
two runs differing only in the prompt produce identical results, because
the parameter is never used. -/
theorem classify_text_prompt_independent
    (pipe : String → List String → Except String (List String))
    (text_list : List String) (terms : List String) (p1 p2 : String) :
    classify_text pipe text_list p1 terms = classify_text pipe text_list p2 terms := rfl

/-- Claim C6: for every existing store, `get_all_collections` succeeds
with a list of collection names that is sorted ascending and has no
duplicates. -/
theorem get_all_collections_sorted_nodup (st : Store) (h : st.pathExists = true) :
    ∃ l, (get_all_collections st).1 = Except.ok l
      ∧ l.Sorted (· ≤ ·) ∧ l.Nodup := by
  refine ⟨sortedSet ((st.collections.map (fun r => r.collectionName)).filterMap id),
    ?_, ?_, ?_⟩
  · unfold get_all_collections
    rw [if_neg (by rw [h]; exact fun hc => Bool.true_eq_false.mp hc)]
  · exact List.sorted_insertionSort _ _
  · exact (List.perm_insertionSort _ _).symm.nodup (List.nodup_dedup _)

/-- Witness for C6 at a concrete store with duplicate, unsorted and
`NULL` names. -/
theorem get_all_collections_sorted_nodup_witness :
    ∃ l, (get_all_collections storeNames).1 = Except.ok l
      ∧ l.Sorted (· ≤ ·) ∧ l.Nodup :=
  get_all_collections_sorted_nodup storeNames rfl

/-- Claim C7: both database functions fail with `NotFound` exactly when
the store path does not exist, and then no connection has been opened;
an unknown collection name instead yields the empty result. -/
theorem notFound_iff_missing_store (st : Store) (name : String) (ra : Bool) :
    ((get_all_collections st).1 = Except.error DBError.notFound ↔ st.pathExists = false)
    ∧ ((get_collection_items_metadata st name ra).1 = Except.error DBError.notFound
        ↔ st.pathExists = false)
    ∧ (st.pathExists = false →
        (get_all_collections st).2 = []
        ∧ (get_collection_items_metadata st name ra).2 = [])
    ∧ (st.pathExists = true →
        st.collections.find? (fun r => r.collectionName == some name) = none →
        (get_collection_items_metadata st name ra).1 = Except.ok []) := by
  by_cases h : st.pathExists = false
  · refine ⟨?_, ?_, ?_, ?_⟩
    · simp [get_all_collections, h]
    · simp [get_collection_items_metadata, h]
    · intro _
      rw [get_all_collections_trace, get_collection_items_metadata_trace, if_pos h]
      exact ⟨rfl, rfl⟩
    · intro h1 _
      rw [h1] at h
      cases h
  · refine ⟨?_, ?_, ?_, ?_⟩
    · unfold get_all_collections
      rw [if_neg h]
      simp [h]
    · unfold get_collection_items_metadata
      rw [if_neg h]
      cases hf : st.collections.find? (fun r => r.collectionName == some name) with
      | none => simp [h]
      | some row => simp [h]
    · intro hc
      exact absurd hc h
    · intro _ hf
      unfold get_collection_items_metadata
      rw [if_neg h]
      rw [hf]

/-- Witness for C7 at a concrete store and an unknown collection name. -/
theorem notFound_iff_missing_store_witness :
    (get_collection_items_metadata storeDated "nope" false).1 = Except.ok [] :=
  (notFound_iff_missing_store storeDated "nope" false).2.2.2 rfl rfl

/-- Claim C10: `get_all_collections` silently excludes `NULL` collection
names — a string is in the result exactly when it occurs as a (non-null)
`collectionName`, so `NULL` rows never contribute an element. -/
theorem get_all_collections_null_excluded (st : Store) (h : st.pathExists = true) :
    ∃ l, (get_all_collections st).1 = Except.ok l
      ∧ ∀ x, x ∈ l ↔ some x ∈ st.collections.map (fun r => r.collectionName) := by
  refine ⟨sortedSet ((st.collections.map (fun r => r.collectionName)).filterMap id),
    ?_, ?_⟩
  · unfold get_all_collections
    rw [if_neg (by rw [h]; exact fun hc => Bool.true_eq_false.mp hc)]
  · intro x
    rw [mem_sortedSet, List.mem_filterMap]
    simp

/-- Witness for C10 at a concrete store containing a `NULL` name. -/
theorem get_all_collections_null_excluded_witness :
    ∃ l, (get_all_collections storeNames).1 = Except.ok l
      ∧ ∀ x, x ∈ l ↔ some x ∈ storeNames.collections.map (fun r => r.collectionName) :=
  get_all_collections_null_excluded storeNames rfl

/-- Claim C5: `classify_text` returns one result per input text, in
order; assuming the pipeline's top-ranked label is always drawn from the
supplied labels, every element is either such a label or an error-flagged
string, and each element is determined by its own text alone (so one
item's failure never disturbs the others). -/
theorem classify_text_per_item
    (pipe : String → List String → Except String (List String))
    (text_list : List String) (prompt : String) (terms : List String)
    (hpipe : ∀ t top rest, pipe t terms = Except.ok (top :: rest) → top ∈ terms) :
    (classify_text pipe text_list prompt terms).length = text_list.length
    ∧ ∀ i, i < text_list.length →
        ∃ t, text_list[i]? = some t
          ∧ (classify_text pipe text_list prompt terms)[i]? = some (classifyOne pipe terms t)
          ∧ (classifyOne pipe terms t ∈ terms
              ∨ ∃ e, classifyOne pipe terms t = "Error: " ++ e) := by
  constructor
  · simp [classify_text]
  · intro i hi
    refine ⟨text_list[i], ?_, ?_, ?_⟩
    · simp [List.getElem?_eq_getElem hi]
    · simp [classify_text, List.getElem?_map, List.getElem?_eq_getElem hi]
    · cases hp : pipe text_list[i] terms with
      | ok ls =>
        cases ls with
        | nil =>
          exact Or.inr ⟨"list index out of range", by simp [classifyOne, hp]⟩
        | cons top rest =>
          have htop := hpipe _ top rest hp
          exact Or.inl (by simpa [classifyOne, hp] using htop)
      | error e =>
        exact Or.inr ⟨e, by simp [classifyOne, hp]⟩

/-- Witness for C5 at a concrete pipeline that ranks the supplied labels
as given. -/
theorem classify_text_per_item_witness :
    (classify_text pipeId ["x", "y"] "p" ["a", "b"]).length
        = (["x", "y"] : List String).length
    ∧ ∀ i, i < (["x", "y"] : List String).length →
        ∃ t, (["x", "y"] : List String)[i]? = some t
          ∧ (classify_text pipeId ["x", "y"] "p" ["a", "b"])[i]?
              = some (classifyOne pipeId ["a", "b"] t)
          ∧ (classifyOne pipeId ["a", "b"] t ∈ (["a", "b"] : List String)
              ∨ ∃ e, classifyOne pipeId ["a", "b"] t = "Error: " ++ e) :=
  classify_text_per_item pipeId ["x", "y"] "p" ["a", "b"] (by
    intro t top rest h
    simp only [pipeId] at h
    injection h with h1
    injection h1 with h2 h3
    rw [← h2]
    simp)

/-- Claim C8 (as stated): for every record produced by
`get_collection_items_metadata`, the `year` field equals the extraction
from the item's raw date value: the first four characters when the date
value starts with four digits, the empty string otherwise; hence it is
always empty or exactly four digits. -/
theorem year_extraction (st : Store) (name : String) (ra : Bool) (l : List ItemMeta)
    (h : (get_collection_items_metadata st name ra).1 = Except.ok l)
    (m : ItemMeta) (hm : m ∈ l) :
    m.year = extractYear (dateValue st m.itemID)
    ∧ (∀ s, dateValue st m.itemID = some s → startsWithFourDigits s = true →
        m.year = String.mk (s.toList.take 4))
    ∧ (∀ s, dateValue st m.itemID = some s → startsWithFourDigits s = false →
        m.year = "")
    ∧ (m.year = "" ∨ (m.year.length = 4 ∧ m.year.toList.all Char.isDigit = true)) := by
  obtain ⟨iid, rfl⟩ := mem_get_collection_items_metadata st name ra l h m hm
  refine ⟨rfl, ?_, ?_, ?_⟩
  · intro s hs h4
    rw [buildMeta_year]
    rw [buildMeta_itemID] at hs
    rw [hs]
    exact extractYear_of_fourDigits s h4
  · intro s hs h0
    rw [buildMeta_year]
    rw [buildMeta_itemID] at hs
    rw [hs]
    exact extractYear_of_not_fourDigits s h0
  · rw [buildMeta_year]
    exact extractYear_shape _

/-- Witness for C8 at a concrete store whose single item has date value
`"2023-05-01"`. -/
theorem year_extraction_witness :
    metaDated.year = extractYear (dateValue storeDated metaDated.itemID)
    ∧ (∀ s, dateValue storeDated metaDated.itemID = some s →
        startsWithFourDigits s = true → metaDated.year = String.mk (s.toList.take 4))
    ∧ (∀ s, dateValue storeDated metaDated.itemID = some s →
        startsWithFourDigits s = false → metaDated.year = "")
    ∧ (metaDated.year = ""
        ∨ (metaDated.year.length = 4 ∧ metaDated.year.toList.all Char.isDigit = true)) :=
  year_extraction storeDated "c" false [metaDated] (by decide) metaDated
    (List.mem_singleton.mpr rfl)

/-- Counterexample to claim C1 as stated: on a store whose single
collection item has an `items` row with an empty key, the
`require_attachment=True` result keeps the record, while the
`require_attachment=False` result restricted to non-empty keys drops
it. -/
theorem require_attachment_claim_counterexample :
    ¬ ((get_collection_items_metadata storeKeyEmpty "c" true).1
        = Except.map (List.filter keyNonEmptySpec)
            ((get_collection_items_metadata storeKeyEmpty "c" false).1)) := by
  decide

/-- Claim C1 (amended): the `require_attachment=True` result equals the
`require_attachment=False` result restricted to records whose item has a
row in the `items` table, with the retained records and their order
unchanged — the filter is on row existence, not on a non-empty key. -/
theorem require_attachment_filters_on_items_row (st : Store) (name : String) :
    (get_collection_items_metadata st name true).1
      = Except.map
          (List.filter (fun m => (st.items.find? (fun r => r.itemID == m.itemID)).isSome))
          ((get_collection_items_metadata st name false).1) := by
  unfold get_collection_items_metadata
  by_cases hp : st.pathExists = false
  · simp only [if_pos hp]
    rfl
  · simp only [if_neg hp]
    cases hf : st.collections.find? (fun r => r.collectionName == some name) with
    | none => rfl
    | some row =>
      refine congrArg Except.ok ?_
      rw [show (fun item_id : Int =>
          if true && (st.items.find? (fun r => r.itemID == item_id)).isNone then none
          else some (buildMeta st item_id))
        = (fun item_id : Int =>
          if (st.items.find? (fun r => r.itemID == item_id)).isNone then none
          else some (buildMeta st item_id)) from by
            funext item_id
            rw [Bool.true_and]]
      rw [filterMap_attachment]
      refine congrArg _ ?_
      rw [show (fun item_id : Int =>
          if false && (st.items.find? (fun r => r.itemID == item_id)).isNone then none
          else some (buildMeta st item_id))
        = (some ∘ buildMeta st) from by
            funext item_id
            rw [Bool.false_and]
            rfl]
      rw [List.filterMap_eq_map]

end TextToColumns
